import Mathlib

/-
Shallow embedding of `src/actualisation.py` (a Streamlit geospatial
dashboard).  Machine floats are modelled by `ℚ`; CSV cells carry either a
number, a raw string, or a missing value (`nan`).  Pandas/GeoPandas
operations used by the program are modelled by executable Lean functions,
each annotated with the source lines it embeds.  Fallible operations
(a pandas call that raises on the modelled input) return `Option`.
-/

namespace Actualisation

/-! ### Small string operations

These re-implement, over `List Char`, the string primitives the program
relies on (whitespace stripping inside numeric parsing, and Python's
`str.startswith`), so that every definition evaluates by reduction. -/

/-- Whitespace as stripped by numeric parsing. -/
def isSpaceChar (c : Char) : Bool :=
  c = ' ' || c = '\t' || c = '\n' || c = '\r'

/-- Strip leading and trailing whitespace. -/
def trimChars (cs : List Char) : List Char :=
  ((cs.dropWhile isSpaceChar).reverse.dropWhile isSpaceChar).reverse

/-- Split a character list at every occurrence of `sep`. -/
def splitOnChar (sep : Char) : List Char → List (List Char)
  | [] => [[]]
  | c :: t =>
      let r := splitOnChar sep t
      if c = sep then [] :: r
      else
        match r with
        | [] => [[c]]
        | h :: t2 => (c :: h) :: t2

/-- Python `s.startswith(pat)`. -/
def strStartsWith (s pat : String) : Bool :=
  pat.data.isPrefixOf s.data

/-! ### Numeric parsing (pandas `pd.to_numeric(..., errors="coerce")`) -/

/-- Value of a list of decimal digit characters, most significant first. -/
def natOfDigits (cs : List Char) : Nat :=
  cs.foldl (fun a c => a * 10 + (c.toNat - 48)) 0

/-- Parse a decimal literal (optional sign, digits, optional fractional
part) into a rational.  This models the successful (finite) outcomes of
`pd.to_numeric` on a CSV cell; any string outside this grammar coerces to
`NaN`, modelled by `none`. -/
def parseRat (s : String) : Option ℚ :=
  let cs := trimChars s.data
  let sgn : ℚ × List Char :=
    match cs with
    | '-' :: t => (-1, t)
    | '+' :: t => (1, t)
    | _ => (1, cs)
  match splitOnChar '.' sgn.2 with
  | [ip] =>
      if !ip.isEmpty && ip.all (·.isDigit) then
        some (sgn.1 * (natOfDigits ip : ℚ))
      else none
  | [ip, fp] =>
      if (!ip.isEmpty || !fp.isEmpty) && ip.all (·.isDigit) && fp.all (·.isDigit) then
        some (sgn.1 * ((natOfDigits ip : ℚ) + (natOfDigits fp : ℚ) / (10 : ℚ) ^ fp.length))
      else none
  | _ => none

/-! ### CSV cells -/

/-- A cell of the concession CSV as pandas holds it after `read_csv`:
a parsed number, a raw string (non-numeric column), or a missing value. -/
inductive Cell where
  | num (q : ℚ)
  | str (s : String)
  | nan
deriving DecidableEq, Repr

/-- `pd.to_numeric(cell, errors="coerce")`: numbers pass through, strings
are parsed (unparseable ones become `NaN` = `none`), missing stays `NaN`. -/
def to_numeric_coerce (c : Cell) : Option ℚ :=
  match c with
  | .num q => some q
  | .str s => parseRat s
  | .nan => none

/-- `.fillna(0)` applied to one (possibly `NaN`) numeric value. -/
def fillna0 (o : Option ℚ) : ℚ := o.getD 0

/-! ### Geometry (shapely point-in-polygon predicates)

The program's geometric tests are calls into shapely / GeoPandas.  A
polygon is modelled by its closed-region membership test and its interior
membership test (the boundary is the closed region minus the interior).
For a point `p` and polygon `g`, shapely's DE-9IM semantics give
`p.intersects(g)` ⟺ `p` is in the closed region, and `p.within(g)` ⟺ `p`
is in the interior (a point on the boundary is not `within`). -/

structure Region where
  covers : ℚ × ℚ → Bool
  interior : ℚ × ℚ → Bool
  interior_covers : ∀ p, interior p = true → covers p = true

/-- Point on the boundary of the polygon: in the closed region but not in
the interior. -/
def Region.onBoundary (g : Region) (p : ℚ × ℚ) : Bool :=
  g.covers p && !(g.interior p)

/-- shapely `point.intersects(polygon)`: true iff the point lies in the
closed region (interior or boundary). -/
def ptIntersects (g : Region) (p : ℚ × ℚ) : Bool := g.covers p

/-- shapely `point.within(polygon)`: true iff the point lies strictly in
the interior. -/
def ptWithin (g : Region) (p : ℚ × ℚ) : Bool := g.interior p

/-- Axis-aligned rectangle, a concrete polygon used to instantiate the
theorems on explicit inputs. -/
def rect (x1 y1 x2 y2 : ℚ) : Region where
  covers p := decide (x1 ≤ p.1 ∧ p.1 ≤ x2 ∧ y1 ≤ p.2 ∧ p.2 ≤ y2)
  interior p := decide (x1 < p.1 ∧ p.1 < x2 ∧ y1 < p.2 ∧ p.2 < y2)
  interior_covers p h := by
    simp only [decide_eq_true_eq] at h ⊢
    exact ⟨h.1.le, h.2.1.le, h.2.2.1.le, h.2.2.2.le⟩

/-! ### Data frames -/

/-- One row of the SE polygon GeoDataFrame after `load_se_data`
(lines 66-86): renamed attribute columns plus the geometry. -/
structure SERow where
  region : String
  cercle : String
  commune : String
  idse_new : String
  pop_se : ℚ
  pop_se_ct : ℚ
  geometry : Region

/-- The SE polygon table as passed to `safe_sjoin`: its attribute column
names (relevant to the `index_*` stripping) and its rows. -/
structure PolyFrame where
  cols : List String
  rows : List SERow

/-- One row of the concession points GeoDataFrame: geometry `(LON, LAT)`
plus the two demographic cells. -/
structure PtRow where
  geometry : ℚ × ℚ
  masculin : Cell
  feminin : Cell

/-- The concession points GeoDataFrame.  `hasMasculin` / `hasFeminin`
record whether the CSV actually has the `Masculin` / `Feminin` columns
(the code never checks; it uses `.get`). -/
structure PtFrame where
  hasMasculin : Bool
  hasFeminin : Bool
  rows : List PtRow

/-- `pts.get("Masculin")`: the column when present, `None` otherwise. -/
def PtFrame.masculinCol? (f : PtFrame) : Option (List Cell) :=
  if f.hasMasculin then some (f.rows.map (fun r => r.masculin)) else none

/-- `pts.get("Feminin")`: the column when present, `None` otherwise. -/
def PtFrame.femininCol? (f : PtFrame) : Option (List Cell) :=
  if f.hasFeminin then some (f.rows.map (fun r => r.feminin)) else none

/-! ### Point loading (`load_points`, lines 95-106) -/

/-- One raw row of the concession CSV before coordinate coercion. -/
structure CsvRow where
  lat : String
  lon : String
  masculin : Cell
  feminin : Cell

/-- The raw concession CSV. -/
structure CsvFrame where
  hasMasculin : Bool
  hasFeminin : Bool
  rows : List CsvRow

/-- The point row built from a CSV row that survived the coordinate
filter: geometry is `points_from_xy(LON, LAT)`. -/
def toPointRow (r : CsvRow) : PtRow :=
  { geometry := (fillna0 (parseRat r.lon), fillna0 (parseRat r.lat)),
    masculin := r.masculin, feminin := r.feminin }

/-- `load_points` (lines 96-106): coerce `LAT`/`LON` with
`pd.to_numeric(errors="coerce")`, drop rows where either is `NaN`
(`dropna(subset=["LAT","LON"])`), build point geometries from the
surviving coordinates. -/
def load_points (csv : CsvFrame) : PtFrame :=
  { hasMasculin := csv.hasMasculin
    hasFeminin := csv.hasFeminin
    rows := csv.rows.filterMap (fun r =>
      match parseRat r.lat, parseRat r.lon with
      | some la, some lo =>
          some { geometry := (lo, la), masculin := r.masculin, feminin := r.feminin }
      | _, _ => none) }

/-! ### Safe spatial join (`safe_sjoin`, lines 116-121) -/

/-- `safe_sjoin(points, polygons)` (lines 116-121): copy the polygon
table, drop every column named with an `index_` prefix, then
`gpd.sjoin(points, polygons, predicate="intersects", how="inner")`.
Result: the joined point rows (one copy per matching polygon row, in left
order) together with the polygon-side columns of the join output
(`sjoin` appends a fresh `index_right` column). -/
def safe_sjoin (points : PtFrame) (polygons : PolyFrame) : PtFrame × List String :=
  let stripped : PolyFrame :=
    { polygons with cols := polygons.cols.filter (fun c => !(strStartsWith c "index_")) }
  ({ points with
      rows := points.rows.flatMap (fun p =>
        (stripped.rows.filter (fun r => ptIntersects r.geometry p.geometry)).map
          (fun _ => p)) },
   stripped.cols ++ ["index_right"])

/-! ### Hierarchical attribute filter (sidebar, lines 133-148) -/

/-- `gdf_r = gdf[gdf["region"] == region]` (line 134). -/
def gdf_r (gdf : List SERow) (region : String) : List SERow :=
  gdf.filter (fun x => x.region == region)

/-- `gdf_c = gdf_r[gdf_r["cercle"] == cercle]` (line 137). -/
def gdf_c (gdf : List SERow) (region cercle : String) : List SERow :=
  (gdf_r gdf region).filter (fun x => x.cercle == cercle)

/-- `gdf_commune = gdf_c[gdf_c["commune"] == commune]` (line 140). -/
def gdf_commune (gdf : List SERow) (region cercle commune : String) : List SERow :=
  (gdf_c gdf region cercle).filter (fun x => x.commune == commune)

/-- pandas `Series.unique()`: distinct values in order of first
occurrence. -/
def pdUniqueAux (seen : List String) : List String → List String
  | [] => []
  | a :: t => if a ∈ seen then pdUniqueAux seen t else a :: pdUniqueAux (a :: seen) t

/-- `gdf_commune["idse_new"].unique()`. -/
def pdUnique (l : List String) : List String := pdUniqueAux [] l

/-- `idse_list = ["No filter"] + sorted(gdf_commune["idse_new"].unique())`
(line 142).  Python `sorted` on strings is the lexical order; since the
values are distinct, any correct sort produces the same list. -/
def idse_list (sub : List SERow) : List String :=
  "No filter" :: List.insertionSort (· ≤ ·) (pdUnique (sub.map (fun x => x.idse_new)))

/-- The zone candidate list as the specification words it: "the lexically
sorted list of distinct idse_new values occurring in the currently
selected commune's polygon subset" (no sentinel entry).  Kept separate
from `idse_list`, which embeds the code, so the two can be compared. -/
def spec_zone_candidates (sub : List SERow) : List String :=
  List.insertionSort (· ≤ ·) (pdUnique (sub.map (fun x => x.idse_new)))

/-- `gdf_idse` (lines 145-148): the commune subset when "No filter" is
selected, otherwise the rows whose `idse_new` equals the selection. -/
def gdf_idse (sub : List SERow) (idse_selected : String) : List SERow :=
  if idse_selected = "No filter" then sub
  else sub.filter (fun x => x.idse_new == idse_selected)

/-! ### Drawn-polygon statistics path (lines 195-214) -/

/-- `last_feature = map_data["all_drawings"][-1]` (line 196); only
reached when the drawings list is non-empty. -/
def last_feature (all_drawings : List Region) : Option Region :=
  all_drawings.getLast?

/-- `pts_poly = points_gdf[points_gdf.geometry.within(poly)]` (line 201):
the points strictly within the drawn polygon. -/
def pts_poly (points : PtFrame) (poly : Region) : PtFrame :=
  { points with rows := points.rows.filter (fun p => ptWithin poly p.geometry) }

/-- The point subset the drawn-polygon statistics are computed from
(lines 195-201): the last drawn feature only; `none` when nothing has
been drawn (the statistics block is skipped). -/
def drawn_points_subset (points : PtFrame) (all_drawings : List Region) : Option PtFrame :=
  (last_feature all_drawings).map (fun poly => pts_poly points poly)

/-- The drawn-polygon aggregation (lines 208-220):
`m_poly = pd.to_numeric(pts_poly.get("Masculin"), errors="coerce").fillna(0).sum()`
and likewise for `Feminin`, displayed as the triple (M, F, M+F).
When the column is absent, `.get` returns `None`, `to_numeric` turns it
into a scalar `NaN`, and the `.fillna` attribute access raises
(`AttributeError`) — modelled by `none`. -/
def polygon_stats_agg (pts : PtFrame) : Option (ℚ × ℚ × ℚ) := do
  let mcol ← pts.masculinCol?
  let m := ((mcol.map to_numeric_coerce).map fillna0).sum
  let fcol ← pts.femininCol?
  let f := ((fcol.map to_numeric_coerce).map fillna0).sum
  return (m, f, m + f)

/-! ### SE attribute-query statistics path (lines 257-266) -/

/-- pandas `Series.sum()` over a column of cells: `NaN` values are
skipped (`skipna=True`); a string cell means the column is object-dtype
and the sum is not a number (string concatenation or `TypeError`),
modelled by `none`. -/
def seriesSum : List Cell → Option ℚ
  | [] => some 0
  | Cell.nan :: t => seriesSum t
  | Cell.num q :: t => (seriesSum t).map (fun s => q + s)
  | Cell.str _ :: _ => none

/-- The SE-path aggregation (lines 259-266):
`m_total = pts_se.get("Masculin", pd.Series()).sum()` and likewise for
`Feminin`, displayed as the triple (M, F, M+F).  A missing column is
replaced by an empty series (summing to 0); present values are summed
raw, with no `to_numeric` coercion. -/
def se_stats_agg (pts : PtFrame) : Option (ℚ × ℚ × ℚ) := do
  let m ← seriesSum (pts.masculinCol?.getD [])
  let f ← seriesSum (pts.femininCol?.getD [])
  return (m, f, m + f)

/-! ### Users and login (lines 20-59) -/

/-- A record of the `USERS` table. -/
structure UserRec where
  password : String
  role : String
deriving DecidableEq, Repr

/-- `USERS` (lines 20-23). -/
def USERS : List (String × UserRec) :=
  [("admin", { password := "admin2025", role := "Admin" }),
   ("customer", { password := "cust2025", role := "Customer" })]

/-- The session-state fields the login flow touches (lines 28-32). -/
structure SessionState where
  auth_ok : Bool
  username : Option String
  user_role : Option String
  points_gdf : Option PtFrame

/-- Session-state initialisation (lines 28-32). -/
def sessionInit : SessionState :=
  { auth_ok := false, username := none, user_role := none, points_gdf := none }

/-- The login button handler (lines 50-57): on a password match, set
`auth_ok`, `username` and `user_role`; otherwise show the inline error
`"❌ Incorrect password"` and leave the session state untouched.  The
result pairs the new state with whether the error was shown; `none`
models the `KeyError` on a username outside `USERS` (unreachable: the
selectbox only offers `USERS` keys). -/
def login_click (st : SessionState) (username password : String) :
    Option (SessionState × Bool) :=
  match USERS.lookup username with
  | none => none
  | some u =>
      if password = u.password then
        some ({ st with auth_ok := true, username := some username,
                        user_role := some u.role }, false)
      else
        some (st, true)

/-! ### Statement helpers and concrete inputs -/

/-- The numeric value a cell contributes to a raw `Series.sum` when the
column has no string cells (`NaN` is skipped, i.e. contributes 0). -/
def rawNum : Cell → ℚ
  | Cell.num q => q
  | _ => 0

/-- A concrete polygon: the closed square [0,2] × [0,2]. -/
def sq02 : Region := rect 0 0 2 2

/-- A point on the left edge of `sq02` — boundary contact only. -/
def ptOnEdge : PtRow :=
  { geometry := (0, 1), masculin := Cell.num 1, feminin := Cell.num 2 }

/-- A point strictly inside `sq02`. -/
def ptInside : PtRow :=
  { geometry := (1, 1), masculin := Cell.num 3, feminin := Cell.num 4 }

/-- A concrete points frame holding the two points above. -/
def wPts : PtFrame :=
  { hasMasculin := true, hasFeminin := true, rows := [ptOnEdge, ptInside] }

/-- A concrete SE polygon row whose geometry is `sq02`. -/
def wSERow : SERow :=
  { region := "R1", cercle := "C1", commune := "M1", idse_new := "Z1",
    pop_se := 100, pop_se_ct := 80, geometry := sq02 }

/-- A second SE row in the same commune with another zone id. -/
def wSERow2 : SERow :=
  { region := "R1", cercle := "C1", commune := "M1", idse_new := "Z2",
    pop_se := 50, pop_se_ct := 40, geometry := sq02 }

/-- A concrete polygon frame. -/
def wPolyFrame : PolyFrame :=
  { cols := ["region", "idse_new"], rows := [wSERow] }

/-- An empty point subset that still carries the demographic columns
(filtering a frame never removes columns). -/
def wEmptyPts : PtFrame :=
  { hasMasculin := true, hasFeminin := true, rows := [] }

/-- A point frame without a `Masculin` column: the drawn-polygon
aggregation raises on it. -/
def wNoMasculin : PtFrame :=
  { hasMasculin := false, hasFeminin := true,
    rows := [{ geometry := (0, 0), masculin := Cell.nan, feminin := Cell.num 3 }] }

/-- A point frame with both columns, holding a non-numeric cell and
missing cells. -/
def wMixedCells : PtFrame :=
  { hasMasculin := true, hasFeminin := true,
    rows := [{ geometry := (0, 0), masculin := Cell.num 2, feminin := Cell.str "x" },
             { geometry := (1, 1), masculin := Cell.nan, feminin := Cell.num 3 }] }

/-- A point frame with both columns and purely numeric/missing cells. -/
def wNumCells : PtFrame :=
  { hasMasculin := true, hasFeminin := true,
    rows := [{ geometry := (0, 0), masculin := Cell.num 2, feminin := Cell.nan },
             { geometry := (1, 1), masculin := Cell.nan, feminin := Cell.num 3 }] }

/-! ### Helper lemmas -/

theorem mem_pdUniqueAux {a : String} :
    ∀ (seen l : List String), a ∈ pdUniqueAux seen l ↔ a ∈ l ∧ a ∉ seen := by
  intro seen l
  induction l generalizing seen with
  | nil => simp [pdUniqueAux]
  | cons b t ih =>
      rw [pdUniqueAux]
      by_cases hb : b ∈ seen
      · rw [if_pos hb, ih, List.mem_cons]
        constructor
        · rintro ⟨ht, hs⟩
          exact ⟨Or.inr ht, hs⟩
        · rintro ⟨rfl | ht, hs⟩
          · exact absurd hb hs
          · exact ⟨ht, hs⟩
      · rw [if_neg hb, List.mem_cons, ih, List.mem_cons]
        simp only [List.mem_cons, not_or]
        constructor
        · rintro (rfl | ⟨ht, hne, hs⟩)
          · exact ⟨Or.inl rfl, hb⟩
          · exact ⟨Or.inr ht, hs⟩
        · rintro ⟨rfl | ht, hs⟩
          · exact Or.inl rfl
          · rcases eq_or_ne a b with rfl | hne
            · exact Or.inl rfl
            · exact Or.inr ⟨ht, hne, hs⟩

theorem nodup_pdUniqueAux : ∀ (seen l : List String), (pdUniqueAux seen l).Nodup := by
  intro seen l
  induction l generalizing seen with
  | nil => simp [pdUniqueAux]
  | cons b t ih =>
      by_cases hb : b ∈ seen
      · rw [pdUniqueAux, if_pos hb]; exact ih seen
      · rw [pdUniqueAux, if_neg hb]
        refine List.Nodup.cons ?_ (ih (b :: seen))
        intro hmem
        exact ((mem_pdUniqueAux _ _).mp hmem).2 (List.mem_cons_self _ _)

theorem mem_pdUnique {a : String} {l : List String} : a ∈ pdUnique l ↔ a ∈ l := by
  rw [pdUnique, mem_pdUniqueAux]
  simp

theorem nodup_pdUnique (l : List String) : (pdUnique l).Nodup :=
  nodup_pdUniqueAux [] l

theorem mem_safe_sjoin_rows (pts : PtFrame) (pf : PolyFrame) (q : PtRow) :
    q ∈ (safe_sjoin pts pf).1.rows ↔
      q ∈ pts.rows ∧ ∃ r ∈ pf.rows, ptIntersects r.geometry q.geometry = true := by
  show q ∈ pts.rows.flatMap _ ↔ _
  rw [List.mem_flatMap]
  constructor
  · rintro ⟨p, hp, hq⟩
    rcases List.mem_map.mp hq with ⟨r, hr, rfl⟩
    rcases List.mem_filter.mp hr with ⟨hrmem, hrint⟩
    exact ⟨hp, r, hrmem, hrint⟩
  · rintro ⟨hq, r, hr, hint⟩
    exact ⟨q, hq, List.mem_map.mpr ⟨r, List.mem_filter.mpr ⟨hr, hint⟩, rfl⟩⟩

theorem seriesSum_of_no_str :
    ∀ (cells : List Cell), (∀ c ∈ cells, ∀ s, c ≠ Cell.str s) →
      seriesSum cells = some ((cells.map rawNum).sum) := by
  intro cells h
  induction cells with
  | nil => simp [seriesSum]
  | cons c t ih =>
      have ht : ∀ c ∈ t, ∀ s, c ≠ Cell.str s :=
        fun c hc => h c (List.mem_cons_of_mem _ hc)
      cases c with
      | num q => rw [seriesSum, ih ht]; simp [rawNum]
      | str s => exact absurd rfl (h _ (List.mem_cons_self _ _) s)
      | nan => rw [seriesSum, ih ht]; simp [rawNum]

/-! ### Claim theorems -/

/-- Claim C1: the two spatial-query paths use different predicates.  The
attribute path (`safe_sjoin`, line 121, `predicate="intersects"`) keeps
exactly the points whose geometry intersects some polygon of the subset,
boundary contact included, while the drawn-polygon path (line 201,
`.within`) keeps exactly the points strictly inside the drawn polygon;
consequently a point lying exactly on a polygon's boundary is kept by the
intersects path and dropped by the within path. -/
theorem claim_spatial_predicate_asymmetry
    (pts : PtFrame) (pf : PolyFrame) (poly : Region) (p q : PtRow)
    (hq : q ∈ pts.rows) (hp : p ∈ pts.rows)
    (hpoly : ∃ r ∈ pf.rows, r.geometry = poly)
    (hb : poly.onBoundary p.geometry = true) :
    (q ∈ (safe_sjoin pts pf).1.rows ↔
        ∃ r ∈ pf.rows, ptIntersects r.geometry q.geometry = true)
    ∧ (q ∈ (pts_poly pts poly).rows ↔ ptWithin poly q.geometry = true)
    ∧ p ∈ (safe_sjoin pts pf).1.rows
    ∧ p ∉ (pts_poly pts poly).rows := by
  have hb' := hb
  simp only [Region.onBoundary, Bool.and_eq_true, Bool.not_eq_true'] at hb'
  obtain ⟨hcov, hinterior⟩ := hb'
  refine ⟨?_, ?_, ?_, ?_⟩
  · rw [mem_safe_sjoin_rows]
    exact and_iff_right hq
  · show q ∈ pts.rows.filter _ ↔ _
    rw [List.mem_filter]
    exact and_iff_right hq
  · rcases hpoly with ⟨r, hr, hgeom⟩
    refine (mem_safe_sjoin_rows pts pf p).mpr ⟨hp, r, hr, ?_⟩
    show r.geometry.covers p.geometry = true
    rw [hgeom]
    exact hcov
  · intro hmem
    have := (List.mem_filter.mp hmem).2
    rw [show ptWithin poly p.geometry = poly.interior p.geometry from rfl,
        hinterior] at this
    exact absurd this (by simp)

/-- Witness for C1 at a concrete input: the point (0, 1) lies exactly on
the boundary of the square [0,2] × [0,2]; the intersects path keeps it,
the within path drops it. -/
theorem claim_spatial_predicate_asymmetry_witness :
    sq02.onBoundary ptOnEdge.geometry = true
    ∧ ptOnEdge ∈ (safe_sjoin wPts wPolyFrame).1.rows
    ∧ ptOnEdge ∉ (pts_poly wPts sq02).rows := by
  have h := claim_spatial_predicate_asymmetry wPts wPolyFrame sq02 ptOnEdge ptOnEdge
    (List.mem_cons_self _ _) (List.mem_cons_self _ _)
    ⟨wSERow, List.mem_cons_self _ _, rfl⟩ (by decide)
  exact ⟨by decide, h.2.2.1, h.2.2.2⟩

/-- Claim C2: a row of the point CSV survives `load_points`
(lines 96-106) iff both its LAT and LON fields parse as (finite) numbers:
the surviving rows are exactly the parseable ones, mapped to point rows,
and unparseable rows are dropped silently (`load_points` is total). -/
theorem claim_load_points_filter (csv : CsvFrame) :
    (load_points csv).rows =
      (csv.rows.filter
        (fun r => (parseRat r.lat).isSome && (parseRat r.lon).isSome)).map toPointRow := by
  show csv.rows.filterMap _ = _
  induction csv.rows with
  | nil => rfl
  | cons r t ih =>
      rw [List.filterMap_cons, List.filter_cons]
      cases hla : parseRat r.lat with
      | none => simpa [hla] using ih
      | some la =>
          cases hlo : parseRat r.lon with
          | none => simpa [hla, hlo] using ih
          | some lo =>
              rw [if_pos (by simp [hla, hlo])]
              rw [List.map_cons, ← ih]
              simp [hla, hlo, toPointRow, fillna0]

/-- Claim C7: `safe_sjoin` (lines 116-121) against an empty polygon
subset returns an empty point subset (and returns, rather than raising:
the function is total). -/
theorem claim_sjoin_empty_polygons (pts : PtFrame) (cols : List String) :
    (safe_sjoin pts { cols := cols, rows := [] }).1.rows = [] := by
  show pts.rows.flatMap _ = []
  induction pts.rows with
  | nil => rfl
  | cons p t ih => simp [ih]

/-- Claim C8: `safe_sjoin` (lines 117-120) drops from the polygon table
every column whose name starts with `index_` before joining: the
polygon-side columns of the join output are exactly the input columns
without an `index_` prefix, plus the fresh `index_right` column the join
appends; hence re-joining a previously joined result sees the same
stripped columns as joining the original (the leftover `index_right` is
stripped again instead of breaking the join). -/
theorem claim_strip_index_columns (pts : PtFrame) (pf : PolyFrame) (c : String) :
    (c ∈ (safe_sjoin pts pf).2 ↔
        (c ∈ pf.cols ∧ strStartsWith c "index_" = false) ∨ c = "index_right")
    ∧ (∀ (pts2 : PtFrame) (rows2 : List SERow),
        (safe_sjoin pts2 { cols := (safe_sjoin pts pf).2, rows := rows2 }).2
          = (safe_sjoin pts2 pf).2) := by
  constructor
  · show c ∈ pf.cols.filter _ ++ ["index_right"] ↔ _
    rw [List.mem_append, List.mem_filter]
    simp [Bool.not_eq_true']
  · intro pts2 rows2
    show (pf.cols.filter _ ++ ["index_right"]).filter _ ++ ["index_right"]
        = pf.cols.filter _ ++ ["index_right"]
    rw [List.filter_append, List.filter_filter]
    simp [show strStartsWith "index_right" "index_" = true from by decide]

/-- Counterexample to C3 as stated: the SE dropdown's candidate list
(`idse_list`, line 142) is not the sorted distinct `idse_new` list —
the code prepends the sentinel entry `"No filter"`.  Shown on the
concrete one-row commune subset `[wSERow]`: the candidate list is
`["No filter", "Z1"]`, the sorted distinct list is `["Z1"]`. -/
theorem claim_zone_candidates_counterexample :
    idse_list [wSERow] ≠ spec_zone_candidates [wSERow] := by
  show "No filter" :: spec_zone_candidates [wSERow] ≠ spec_zone_candidates [wSERow]
  exact List.cons_ne_self _ _

/-- Claim C3 (amended): for every selected commune, the SE dropdown's
candidate list is the entry "No filter" followed by the lexically sorted
list of distinct `idse_new` values occurring in the selected commune's
polygon subset (line 142). -/
theorem claim_zone_candidates_amended
    (gdf : List SERow) (region cercle commune : String) :
    ∃ tail,
      idse_list (gdf_commune gdf region cercle commune) = "No filter" :: tail
      ∧ tail.Sorted (· ≤ ·)
      ∧ tail.Nodup
      ∧ ∀ s, (s ∈ tail ↔ ∃ r ∈ gdf_commune gdf region cercle commune, r.idse_new = s) := by
  refine ⟨_, rfl, ?_, ?_, ?_⟩
  · exact List.sorted_insertionSort _ _
  · exact ((List.perm_insertionSort _ _).nodup_iff).mpr (nodup_pdUnique _)
  · intro s
    rw [(List.perm_insertionSort _ _).mem_iff, mem_pdUnique, List.mem_map]

/-- Claim C4: at the lowest filter level (lines 145-148), selecting
"No filter" yields the full commune-level parent subset, and selecting a
specific zone id yields the parent subset restricted to the rows whose
`idse_new` equals that id. -/
theorem claim_zone_selection (sub : List SERow) (sel : String) (r : SERow) :
    gdf_idse sub "No filter" = sub
    ∧ (sel ≠ "No filter" → (r ∈ gdf_idse sub sel ↔ r ∈ sub ∧ r.idse_new = sel)) := by
  constructor
  · simp [gdf_idse]
  · intro h
    rw [gdf_idse, if_neg h, List.mem_filter]
    simp

/-- Witness for C4 at a concrete input: selecting zone "Z1" in a
two-row commune subset keeps exactly the matching row. -/
theorem claim_zone_selection_witness :
    ("Z1" : String) ≠ "No filter"
    ∧ (wSERow ∈ gdf_idse [wSERow, wSERow2] "Z1" ↔
        wSERow ∈ [wSERow, wSERow2] ∧ wSERow.idse_new = "Z1") :=
  ⟨by decide, (claim_zone_selection [wSERow, wSERow2] "Z1" wSERow).2 (by decide)⟩

/-- Claim C5: aggregation over an empty point subset yields (0, 0, 0)
and does not raise, on both paths.  The SE path (lines 259-266) does so
for any empty subset; the drawn-polygon path (lines 208-220) does so for
any empty subset that carries the demographic columns, which filtering
the loaded points frame preserves. -/
theorem claim_empty_aggregation (pts : PtFrame) (h : pts.rows = []) :
    se_stats_agg pts = some (0, 0, 0)
    ∧ (pts.hasMasculin = true → pts.hasFeminin = true →
        polygon_stats_agg pts = some (0, 0, 0)) := by
  constructor
  · cases hm : pts.hasMasculin <;> cases hf : pts.hasFeminin <;>
      simp [se_stats_agg, PtFrame.masculinCol?, PtFrame.femininCol?, h, hm, hf, seriesSum]
  · intro hm hf
    simp [polygon_stats_agg, PtFrame.masculinCol?, PtFrame.femininCol?, h, hm, hf]

/-- Witness for C5 at a concrete input: the empty points frame with both
demographic columns present aggregates to (0, 0, 0) on both paths. -/
theorem claim_empty_aggregation_witness :
    se_stats_agg wEmptyPts = some (0, 0, 0)
    ∧ polygon_stats_agg wEmptyPts = some (0, 0, 0) :=
  ⟨(claim_empty_aggregation wEmptyPts rfl).1,
   (claim_empty_aggregation wEmptyPts rfl).2 rfl rfl⟩

/-- Counterexample to C6 as stated: the drawn-polygon aggregation
(lines 208-214) does not treat a missing demographic column as zero.
On a one-point subset whose frame has no `Masculin` column (and
`Feminin` 3), the claim predicts the triple (0, 3, 3); the code instead
raises — `.get("Masculin")` returns `None` and the subsequent `.fillna`
attribute access fails (modelled by `none`). -/
theorem claim_agg_semantics_counterexample :
    polygon_stats_agg wNoMasculin = none
    ∧ ¬ polygon_stats_agg wNoMasculin = some (0, 3, 3) := by
  refine ⟨rfl, ?_⟩
  rw [show polygon_stats_agg wNoMasculin = none from rfl]
  simp

/-- Claim C6 (amended): the drawn-polygon aggregator coerces each value
of a present demographic column, turning missing (`NaN`) and non-numeric
values into zero, and returns (M, F, M + F) — but it raises when either
demographic column is absent.  The SE aggregator substitutes an empty
series (total 0) for an absent column, and sums a present column raw,
without coercing non-numeric values (missing values are skipped by
`sum`). -/
theorem claim_agg_semantics_amended (pts : PtFrame) :
    (pts.hasMasculin = true → pts.hasFeminin = true →
      polygon_stats_agg pts =
        some ((pts.rows.map (fun r => fillna0 (to_numeric_coerce r.masculin))).sum,
              (pts.rows.map (fun r => fillna0 (to_numeric_coerce r.feminin))).sum,
              (pts.rows.map (fun r => fillna0 (to_numeric_coerce r.masculin))).sum
                + (pts.rows.map (fun r => fillna0 (to_numeric_coerce r.feminin))).sum))
    ∧ (pts.hasMasculin = false ∨ pts.hasFeminin = false → polygon_stats_agg pts = none)
    ∧ (∀ s, parseRat s = none → fillna0 (to_numeric_coerce (Cell.str s)) = 0)
    ∧ fillna0 (to_numeric_coerce Cell.nan) = 0
    ∧ (pts.hasMasculin = false → pts.hasFeminin = false →
        se_stats_agg pts = some (0, 0, 0))
    ∧ (pts.hasMasculin = true → pts.hasFeminin = true →
       (∀ r ∈ pts.rows, ∀ s, r.masculin ≠ Cell.str s) →
       (∀ r ∈ pts.rows, ∀ s, r.feminin ≠ Cell.str s) →
        se_stats_agg pts =
          some ((pts.rows.map (fun r => rawNum r.masculin)).sum,
                (pts.rows.map (fun r => rawNum r.feminin)).sum,
                (pts.rows.map (fun r => rawNum r.masculin)).sum
                  + (pts.rows.map (fun r => rawNum r.feminin)).sum)) := by
  refine ⟨?_, ?_, ?_, rfl, ?_, ?_⟩
  · intro hm hf
    simp [polygon_stats_agg, PtFrame.masculinCol?, PtFrame.femininCol?, hm, hf,
      List.map_map, Function.comp_def]
  · rintro (hm | hf)
    · simp [polygon_stats_agg, PtFrame.masculinCol?, hm]
    · cases hm : pts.hasMasculin <;>
        simp [polygon_stats_agg, PtFrame.masculinCol?, PtFrame.femininCol?, hm, hf]
  · intro s hs
    simp [to_numeric_coerce, fillna0, hs]
  · intro hm hf
    simp [se_stats_agg, PtFrame.masculinCol?, PtFrame.femininCol?, hm, hf, seriesSum]
  · intro hm hf hms hfs
    have hnosM : ∀ c ∈ pts.rows.map (fun r => r.masculin), ∀ s, c ≠ Cell.str s := by
      intro c hc s
      rcases List.mem_map.mp hc with ⟨r, hr, rfl⟩
      exact hms r hr s
    have hnosF : ∀ c ∈ pts.rows.map (fun r => r.feminin), ∀ s, c ≠ Cell.str s := by
      intro c hc s
      rcases List.mem_map.mp hc with ⟨r, hr, rfl⟩
      exact hfs r hr s
    have h1 := seriesSum_of_no_str _ hnosM
    have h2 := seriesSum_of_no_str _ hnosF
    rw [List.map_map, Function.comp_def] at h1 h2
    simp [se_stats_agg, PtFrame.masculinCol?, PtFrame.femininCol?, hm, hf, h1, h2]

/-- Witness for amended C6 at concrete inputs: with both columns present,
the drawn path coerces the non-numeric cell "x" and the missing cell to
zero, giving (2, 3, 5); the SE path sums numeric columns (skipping a
missing cell), giving (2, 3, 5). -/
theorem claim_agg_semantics_amended_witness :
    polygon_stats_agg wMixedCells = some (2, 3, 5)
    ∧ se_stats_agg wNumCells = some (2, 3, 5) := by
  constructor
  · have h := (claim_agg_semantics_amended wMixedCells).1 rfl rfl
    rw [h]
    norm_num [wMixedCells, fillna0, to_numeric_coerce,
      show parseRat "x" = none from by decide]
  · have h := (claim_agg_semantics_amended wNumCells).2.2.2.2.2 rfl rfl
      (by intro r hr s
          simp only [wNumCells] at hr
          fin_cases hr <;> simp)
      (by intro r hr s
          simp only [wNumCells] at hr
          fin_cases hr <;> simp)
    rw [h]
    norm_num [wNumCells, rawNum]

/-- Claim C9: the login handler (lines 50-57) with username "admin" and
password "admin2025" authenticates the session with role "Admin"; with
any other password it shows the inline error and leaves the session
state unchanged — still unauthenticated, username and role unset, as the
initial session state (lines 28-32) has them. -/
theorem claim_admin_login (pw : String) :
    login_click sessionInit "admin" "admin2025"
      = some ({ sessionInit with auth_ok := true,
                                 username := some "admin",
                                 user_role := some "Admin" }, false)
    ∧ sessionInit.auth_ok = false
    ∧ sessionInit.username = none
    ∧ sessionInit.user_role = none
    ∧ (pw ≠ "admin2025" → login_click sessionInit "admin" pw = some (sessionInit, true)) := by
  refine ⟨rfl, rfl, rfl, rfl, ?_⟩
  intro h
  show (if pw = "admin2025"
        then some ({ sessionInit with auth_ok := true,
                                      username := some "admin",
                                      user_role := some "Admin" }, false)
        else some (sessionInit, true)) = some (sessionInit, true)
  rw [if_neg h]

/-- Witness for C9 at a concrete input: the password "wrong" is refused
and the session state is returned unchanged with the error flag set. -/
theorem claim_admin_login_witness :
    ("wrong" : String) ≠ "admin2025"
    ∧ login_click sessionInit "admin" "wrong" = some (sessionInit, true) :=
  ⟨by decide, (claim_admin_login "wrong").2.2.2.2 (by decide)⟩

/-- Claim C10: when several polygons have been drawn, the drawn-polygon
statistics are computed from the last element of the drawings list only
(lines 195-201): a point inside an earlier drawn polygon but not within
the most recent one is excluded from the aggregated subset. -/
theorem claim_last_drawing_only
    (points : PtFrame) (ds : List Region) (last : Region) (p : PtRow)
    (hlast : ds.getLast? = some last) (_hp : p ∈ points.rows)
    (earlier : Region) (_he : earlier ∈ ds)
    (_hin : ptWithin earlier p.geometry = true)
    (hout : ptWithin last p.geometry = false) :
    drawn_points_subset points ds = some (pts_poly points last)
    ∧ p ∉ (pts_poly points last).rows := by
  constructor
  · simp [drawn_points_subset, last_feature, hlast]
  · intro hmem
    have hw := (List.mem_filter.mp hmem).2
    rw [hout] at hw
    exact absurd hw (by simp)

/-- Witness for C10 at a concrete input: two drawn squares; the point
(1, 1) is inside the first square but not within the last one, so it is
excluded from the statistics subset. -/
theorem claim_last_drawing_only_witness :
    drawn_points_subset wPts [sq02, rect 2 2 3 3] = some (pts_poly wPts (rect 2 2 3 3))
    ∧ ptInside ∉ (pts_poly wPts (rect 2 2 3 3)).rows :=
  claim_last_drawing_only wPts [sq02, rect 2 2 3 3] (rect 2 2 3 3) ptInside rfl
    (List.mem_cons_of_mem _ (List.mem_cons_self _ _)) sq02 (List.mem_cons_self _ _)
    (by decide) (by decide)

end Actualisation
